import Mathlib

/-!
Shallow embedding of the HID device-access layer (`hid_enabled.go`) of the
`hid` Go package, together with theorems settling the specification claims
about it.

The native hidapi driver is out of scope for the source (its primitives are
invoked, not reimplemented), so it is modelled as an environment `NativeEnv`
of uninterpreted result functions. Every operation of the layer additionally
returns the list of native calls it performed, in order, so that statements
such as "no native call is made" or "the native write receives these bytes"
are expressible. Byte buffers are `List Nat`; Go's `time.Duration` (an int64
count of nanoseconds) is `Int`; Go's typed `(value, error)` returns become
pairs of the value and an `Option HidError`.
-/

namespace Hid

/-- Structured errors produced by the layer: `ErrDeviceClosed` for use after
close, a driver-reported error wrapping the decoded `hid_error` message
(`errors.New ("hidapi: " + failure)` in the source), and the unknown-failure
fallback carrying the OS errno captured right after the failing call. -/
inductive HidError where
  | DeviceClosed : HidError
  | DriverReported (msg : String) : HidError
  | UnknownFailure (errno : Int) : HidError
deriving DecidableEq, Repr

/-- One invocation of a native hidapi primitive, with the arguments the layer
passes to it. Buffers that are only written into by the native side are
recorded by their length, as the source passes a pointer and a length. -/
inductive NativeCall where
  | write (handle : Nat) (report : List Nat) : NativeCall
  | sendFeatureReport (handle : Nat) (report : List Nat) : NativeCall
  | read (handle : Nat) (buflen : Nat) : NativeCall
  | readTimeout (handle : Nat) (buflen : Nat) (ms : Int) : NativeCall
  | getFeatureReport (handle : Nat) (buflen : Nat) : NativeCall
  | hidErrorQuery (handle : Option Nat) : NativeCall
  | getErrno : NativeCall
  | closeHandle (handle : Nat) : NativeCall
deriving DecidableEq, Repr

/-- The results the native hidapi layer would return for each primitive. The
layer under verification is parametric in this behaviour. `hid_error` yields
the per-device last-error message (already decoded from wide characters, the
decoding utility being an external collaborator), or `none` when the native
side has no message. `errno` is the OS error code observed right after the
failing call. -/
structure NativeEnv where
  hid_write : Nat → List Nat → Int
  hid_send_feature_report : Nat → List Nat → Int
  hid_read : Nat → Nat → Int
  hid_read_timeout : Nat → Nat → Int → Int
  hid_get_feature_report : Nat → Nat → Int
  hid_error : Option Nat → Option String
  errno : Int

/-- `DeviceInfo` value record, fields as in the Go struct. Optional text
fields default to the empty string (the Go zero value) when the native
pointer was null. -/
structure DeviceInfo where
  Path : String
  VendorID : Nat
  ProductID : Nat
  Release : Nat
  UsagePage : Nat
  Usage : Nat
  Interface : Int
  Serial : String := ""
  Product : String := ""
  Manufacturer : String := ""
deriving DecidableEq, Repr

/-- A live HID device handle: the embedded `DeviceInfo` plus the owned native
handle. The Go field `device *C.hid_device` is nil after `Close`, modelled as
`Option Nat` with `none` as the closed sentinel. -/
structure Device where
  info : DeviceInfo
  device : Option Nat
deriving DecidableEq, Repr

/-- Conversion of an `Int` to a C `int` (32-bit two's complement wrap-around),
as performed by the `C.int(...)` cast in the source. -/
def cint (x : Int) : Int := (x + 2 ^ 31) % 2 ^ 32 - 2 ^ 31

/-- `(dev *Device) getError() error`: if the device pointer itself is nil,
`ErrDeviceClosed`; otherwise consult `hid_error(dev.device)` first and wrap
its decoded message, falling back to the captured errno only when no message
is present. Returns the error together with the native calls made. -/
def getError (env : NativeEnv) (dev : Option Device) : HidError × List NativeCall :=
  match dev with
  | none => (HidError.DeviceClosed, [])
  | some d =>
    match env.hid_error d.device with
    | none =>
      (HidError.UnknownFailure env.errno,
        [NativeCall.hidErrorQuery d.device, NativeCall.getErrno])
    | some failure =>
      (HidError.DriverReported ("hidapi: " ++ failure),
        [NativeCall.hidErrorQuery d.device])

/-- `(dev *Device) DoWrite(b []byte, featureReport bool) (int, error)`.
`goos` stands for `runtime.GOOS`. Returns the `(int, error)` pair and the
trace of native calls performed. -/
def DoWrite (goos : String) (env : NativeEnv) (dev : Device) (b : List Nat)
    (featureReport : Bool) : (Int × Option HidError) × List NativeCall :=
  if b.length = 0 then ((0, none), [])
  else
    match dev.device with
    | none => ((0, some HidError.DeviceClosed), [])
    | some device =>
      let report : List Nat := if goos = "windows" then 0 :: b else b
      let written : Int :=
        if featureReport then env.hid_send_feature_report device report
        else env.hid_write device report
      let call : NativeCall :=
        if featureReport then NativeCall.sendFeatureReport device report
        else NativeCall.write device report
      if written = -1 then
        let e := getError env (some dev)
        ((0, some e.1), call :: e.2)
      else ((written, none), [call])

/-- `(dev *Device) DoRead(b []byte, featureReport bool, timeout time.Duration)
(int, error)`. The timeout is a nanosecond count; the bounded read receives it
divided by `time.Millisecond` (10^6) and cast to C `int`. Returns the
`(int, error)` pair and the trace of native calls performed. -/
def DoRead (env : NativeEnv) (dev : Device) (b : List Nat) (featureReport : Bool)
    (timeout : Int) : (Int × Option HidError) × List NativeCall :=
  if b.length = 0 then ((0, none), [])
  else
    match dev.device with
    | none => ((0, some HidError.DeviceClosed), [])
    | some device =>
      let read : Int :=
        if featureReport then env.hid_get_feature_report device b.length
        else if timeout > 0 then
          env.hid_read_timeout device b.length (cint (timeout / 1000000))
        else env.hid_read device b.length
      let call : NativeCall :=
        if featureReport then NativeCall.getFeatureReport device b.length
        else if timeout > 0 then
          NativeCall.readTimeout device b.length (cint (timeout / 1000000))
        else NativeCall.read device b.length
      if read = -1 then
        let e := getError env (some dev)
        ((0, some e.1), call :: e.2)
      else ((read, none), [call])

/-- `(dev *Device) Close() error`: no native call when the handle is already
nil, otherwise `hid_close` once and the handle set to nil; the returned error
is always nil. Returns the updated device, the (absent) error, and the trace
of native calls performed. -/
def Close (dev : Device) : (Device × Option HidError) × List NativeCall :=
  match dev.device with
  | none => ((dev, none), [])
  | some h => (({ dev with device := none }, none), [NativeCall.closeHandle h])

/-- A raw record of the native enumeration linked list, fields as in hidapi's
`struct hid_device_info`. Text fields are `none` when the native pointer was
null, and carry the already-decoded text otherwise. -/
structure RawDeviceInfo where
  path : String
  vendor_id : Nat
  product_id : Nat
  release_number : Nat
  usage_page : Nat
  usage : Nat
  interface_number : Int
  serial_number : Option String
  product_string : Option String
  manufacturer_string : Option String

/-- Copying of one native record into an owned `DeviceInfo`, as done by the
loop body of `Enumerate`; the `uint16(...)` casts are mod-2^16. -/
def copyInfo (head : RawDeviceInfo) : DeviceInfo :=
  { Path := head.path
    VendorID := head.vendor_id % 2 ^ 16
    ProductID := head.product_id % 2 ^ 16
    Release := head.release_number % 2 ^ 16
    UsagePage := head.usage_page % 2 ^ 16
    Usage := head.usage % 2 ^ 16
    Interface := head.interface_number
    Serial := (head.serial_number).getD ""
    Product := (head.product_string).getD ""
    Manufacturer := (head.manufacturer_string).getD "" }

/-- `Enumerate(vendorID, productID uint16) []DeviceInfo`: the native
`hid_enumerate` result is modelled as the list of raw records of the linked
list (`[]` when the returned head pointer is nil). A nil head returns nil at
once; otherwise every record is copied. The Go signature has no error return
at all. -/
def Enumerate (native : Nat → Nat → List RawDeviceInfo) (vendorID productID : Nat) :
    List DeviceInfo :=
  match native vendorID productID with
  | [] => []
  | head => head.map copyInfo

/-! Concrete fixtures used by the witness theorems. -/

/-- A sample `DeviceInfo` record. -/
def sampleInfo : DeviceInfo :=
  { Path := "path0", VendorID := 1, ProductID := 2, Release := 3,
    UsagePage := 4, Usage := 5, Interface := -1 }

/-- A device with a live native handle. -/
def openDev : Device := { info := sampleInfo, device := some 1 }

/-- A device whose handle is the closed sentinel. -/
def closedDev : Device := { info := sampleInfo, device := none }

/-- Native behaviour where every transfer succeeds with the full length. -/
def envOk : NativeEnv :=
  { hid_write := fun _ report => Int.ofNat report.length
    hid_send_feature_report := fun _ report => Int.ofNat report.length
    hid_read := fun _ buflen => Int.ofNat buflen
    hid_read_timeout := fun _ buflen _ => Int.ofNat buflen
    hid_get_feature_report := fun _ buflen => Int.ofNat buflen
    hid_error := fun _ => none
    errno := 13 }

/-- Native behaviour where every transfer fails with the -1 sentinel and no
last-error message is populated. -/
def envFailNoMsg : NativeEnv :=
  { envOk with
    hid_write := fun _ _ => -1
    hid_send_feature_report := fun _ _ => -1
    hid_read := fun _ _ => -1
    hid_read_timeout := fun _ _ _ => -1
    hid_get_feature_report := fun _ _ => -1 }

/-- Native behaviour where every transfer fails with the -1 sentinel and a
last-error message is populated. -/
def envFailMsg : NativeEnv :=
  { envFailNoMsg with hid_error := fun _ => some "boom" }

/-- Native behaviour where the bounded read returns 0 (timeout elapsed). -/
def envTimeoutZero : NativeEnv :=
  { envOk with hid_read_timeout := fun _ _ _ => 0 }

/-- A native enumeration returning the nil list for every filter. -/
def emptyNative : Nat → Nat → List RawDeviceInfo := fun _ _ => []

/-! Helper lemmas shared by the claim theorems. -/

/-- The `C.int` cast is the identity on values in `[0, 2^31)`. -/
theorem cint_eq_self (x : Int) (h0 : 0 ≤ x) (h1 : x < 2 ^ 31) : cint x = x := by
  unfold cint
  have h2 : (x + 2 ^ 31) % 2 ^ 32 = x + 2 ^ 31 :=
    Int.emod_eq_of_lt (by omega) (by omega)
  omega

/-- The first native call `DoWrite` performs on an open device with a
non-empty buffer is the selected write primitive applied to the framed
report. -/
theorem DoWrite_trace_head (goos : String) (env : NativeEnv) (dev : Device)
    (handle : Nat) (b : List Nat) (featureReport : Bool)
    (hopen : dev.device = some handle) (hlen : ¬ b.length = 0) :
    (DoWrite goos env dev b featureReport).2.head? = some
      (if featureReport then
        NativeCall.sendFeatureReport handle (if goos = "windows" then 0 :: b else b)
      else NativeCall.write handle (if goos = "windows" then 0 :: b else b)) := by
  simp only [DoWrite]
  rw [hopen]
  simp only [hlen, ite_false, if_neg hlen]
  repeat' split
  all_goals rfl

/-- The first native call `DoRead` performs on an open device with a
non-empty buffer is the selected read primitive. -/
theorem DoRead_trace_head (env : NativeEnv) (dev : Device) (handle : Nat)
    (b : List Nat) (featureReport : Bool) (timeout : Int)
    (hopen : dev.device = some handle) (hlen : ¬ b.length = 0) :
    (DoRead env dev b featureReport timeout).2.head? = some
      (if featureReport then NativeCall.getFeatureReport handle b.length
      else if timeout > 0 then
        NativeCall.readTimeout handle b.length (cint (timeout / 1000000))
      else NativeCall.read handle b.length) := by
  simp only [DoRead]
  rw [hopen]
  simp only [hlen, ite_false, if_neg hlen]
  repeat' split
  all_goals rfl

/-! Theorems settling the claims. -/

/-- Claim C1: on a device whose handle is the closed sentinel, `DoWrite` and
`DoRead` with any non-empty buffer, any featureReport flag and any timeout
return count 0 with the `DeviceClosed` error and perform no native call. -/
theorem closed_device_rejects_io (goos : String) (env : NativeEnv) (dev : Device)
    (b : List Nat) (featureReport : Bool) (timeout : Int)
    (hclosed : dev.device = none) (hne : b ≠ []) :
    DoWrite goos env dev b featureReport = ((0, some HidError.DeviceClosed), []) ∧
    DoRead env dev b featureReport timeout = ((0, some HidError.DeviceClosed), []) := by
  have hlen : ¬ b.length = 0 := by simp [List.length_eq_zero, hne]
  constructor
  · simp [DoWrite, hclosed, hlen]
  · simp [DoRead, hclosed, hlen]

/-- Witness for C1 at a concrete closed device and one-byte buffer. -/
theorem closed_device_rejects_io_witness :
    DoWrite "linux" envOk closedDev [7] false = ((0, some HidError.DeviceClosed), []) ∧
    DoRead envOk closedDev [7] false 0 = ((0, some HidError.DeviceClosed), []) :=
  closed_device_rejects_io "linux" envOk closedDev [7] false 0 rfl (by decide)

/-- Claim C5: with a zero-length buffer, `DoWrite` and `DoRead` return count 0
with no error and perform no native call, on every device — open or closed —
since the empty-buffer check precedes the closed-device check. -/
theorem empty_buffer_no_native_call (goos : String) (env : NativeEnv) (dev : Device)
    (featureReport : Bool) (timeout : Int) :
    DoWrite goos env dev [] featureReport = ((0, none), []) ∧
    DoRead env dev [] featureReport timeout = ((0, none), []) := by
  constructor
  · simp [DoWrite]
  · simp [DoRead]

/-- Claim C6: `Close` never returns an error; on an already-closed handle it
makes no native call and leaves the device unchanged; on a live handle it
performs exactly one native close, marks the handle closed, and a second
`Close` is a success with no native call. -/
theorem close_idempotent (dev : Device) (handle : Nat) :
    ((Close dev).1.2 = none) ∧
    (dev.device = none → Close dev = ((dev, none), [])) ∧
    (dev.device = some handle →
      Close dev = (({ dev with device := none }, none), [NativeCall.closeHandle handle]) ∧
      Close (Close dev).1.1 = (((Close dev).1.1, none), [])) := by
  refine ⟨?_, ?_, ?_⟩
  · cases h : dev.device <;> simp [Close, h]
  · intro h; simp [Close, h]
  · intro h
    refine ⟨by simp [Close, h], ?_⟩
    simp [Close, h]

/-- Witness for C6 at a concrete open device. -/
theorem close_idempotent_witness :
    Close openDev = (({ openDev with device := none }, none), [NativeCall.closeHandle 1]) ∧
    Close (Close openDev).1.1 = (((Close openDev).1.1, none), []) :=
  (close_idempotent openDev 1).2.2 rfl

/-- Claim C9: when the native enumeration returns the nil list, `Enumerate`
returns the empty sequence; its Go signature has no error channel at all, so
no error can be reported. -/
theorem enumerate_empty_native_list (native : Nat → Nat → List RawDeviceInfo)
    (vendorID productID : Nat)
    (hempty : native vendorID productID = []) :
    Enumerate native vendorID productID = [] := by
  simp [Enumerate, hempty]

/-- Witness for C9 at a concrete empty native enumeration. -/
theorem enumerate_empty_native_list_witness :
    Enumerate emptyNative 0 0 = [] :=
  enumerate_empty_native_list emptyNative 0 0 rfl

/-- Claim C2: with an open device and a non-empty payload, the native write
(or feature-write) call receives, on the report-ID framing platform
(`windows`), a report of length `b.length + 1` whose first byte is `0x00`
followed by `b` unchanged; on every other platform it receives exactly `b`
unmodified. -/
theorem write_report_framing (goos : String) (env : NativeEnv) (dev : Device)
    (handle : Nat) (b : List Nat) (featureReport : Bool)
    (hopen : dev.device = some handle) (hne : b ≠ []) :
    ∃ report : List Nat,
      (DoWrite goos env dev b featureReport).2.head? = some
        (if featureReport then NativeCall.sendFeatureReport handle report
          else NativeCall.write handle report) ∧
      (goos = "windows" →
        report.length = b.length + 1 ∧ report.head? = some 0 ∧ report.tail = b) ∧
      (goos ≠ "windows" → report = b) := by
  have hlen : ¬ b.length = 0 := by simp [List.length_eq_zero, hne]
  refine ⟨if goos = "windows" then 0 :: b else b,
    DoWrite_trace_head goos env dev handle b featureReport hopen hlen, ?_, ?_⟩
  · intro h; simp [h]
  · intro h; simp [h]

/-- Witness for C2 on the framing platform at a concrete open device. -/
theorem write_report_framing_witness :
    ∃ report : List Nat,
      (DoWrite "windows" envOk openDev [1, 2] false).2.head? = some
        (if false then NativeCall.sendFeatureReport 1 report
          else NativeCall.write 1 report) ∧
      ("windows" = "windows" →
        report.length = [1, 2].length + 1 ∧ report.head? = some 0 ∧
          report.tail = [1, 2]) ∧
      ("windows" ≠ "windows" → report = [1, 2]) :=
  write_report_framing "windows" envOk openDev 1 [1, 2] false rfl (by decide)

/-- Claim C3: the error translator returns `DeviceClosed` when the device
reference itself is absent; otherwise it consults the per-device last-error
message first — returning a driver-reported error carrying the decoded text
when present — and only when no message is available does it return the
unknown-failure error carrying the captured OS error code; the trace shows
the message query always precedes the errno read. -/
theorem getError_resolution_order (env : NativeEnv) (d : Device) :
    getError env none = (HidError.DeviceClosed, []) ∧
    (∀ msg, env.hid_error d.device = some msg →
      getError env (some d) =
        (HidError.DriverReported ("hidapi: " ++ msg),
          [NativeCall.hidErrorQuery d.device])) ∧
    (env.hid_error d.device = none →
      getError env (some d) =
        (HidError.UnknownFailure env.errno,
          [NativeCall.hidErrorQuery d.device, NativeCall.getErrno])) := by
  refine ⟨rfl, ?_, ?_⟩
  · intro msg hmsg; simp [getError, hmsg]
  · intro hnone; simp [getError, hnone]

/-- Witness for C3: a populated message yields the driver-reported error, an
absent message falls back to the captured errno. -/
theorem getError_resolution_order_witness :
    getError envFailMsg (some openDev) =
      (HidError.DriverReported ("hidapi: " ++ "boom"),
        [NativeCall.hidErrorQuery (some 1)]) ∧
    getError envFailNoMsg (some openDev) =
      (HidError.UnknownFailure 13,
        [NativeCall.hidErrorQuery (some 1), NativeCall.getErrno]) :=
  ⟨(getError_resolution_order envFailMsg openDev).2.1 "boom" rfl,
    (getError_resolution_order envFailNoMsg openDev).2.2 rfl⟩

/-- Claim C4: with an open device, a non-empty buffer and a positive timeout,
a non-feature read whose bounded native read returns 0 (timeout elapsed with
no data) yields a successful zero-byte result: count 0 and no error. -/
theorem read_timeout_elapsed_success (env : NativeEnv) (dev : Device)
    (handle : Nat) (b : List Nat) (timeout : Int)
    (hopen : dev.device = some handle) (hne : b ≠ []) (ht : 0 < timeout)
    (hzero : env.hid_read_timeout handle b.length (cint (timeout / 1000000)) = 0) :
    DoRead env dev b false timeout =
      ((0, none),
        [NativeCall.readTimeout handle b.length (cint (timeout / 1000000))]) := by
  have hlen : ¬ b.length = 0 := by simp [List.length_eq_zero, hne]
  simp only [DoRead]
  rw [hopen]
  simp [hlen, ht, hzero]

/-- Witness for C4 at a concrete 100 ms timeout whose bounded read returns 0. -/
theorem read_timeout_elapsed_success_witness :
    DoRead envTimeoutZero openDev [9] false 100000000 =
      ((0, none), [NativeCall.readTimeout 1 1 (cint (100000000 / 1000000))]) :=
  read_timeout_elapsed_success envTimeoutZero openDev 1 [9] 100000000 rfl
    (by decide) (by decide) rfl

/-- Claim C7: with an open device and a non-empty payload, `DoWrite` fails
with the error translator's result (and count 0) exactly when the selected
native write primitive returns the all-bits-set sentinel -1; any other native
return value is passed through unchanged as the count, which on the framing
platform for a fully transmitted framed report equals `b.length + 1`. -/
theorem write_failure_sentinel_and_count (goos : String) (env : NativeEnv)
    (dev : Device) (handle : Nat) (b : List Nat) (featureReport : Bool) (w : Int)
    (hopen : dev.device = some handle) (hne : b ≠ [])
    (hw : (if featureReport then
            env.hid_send_feature_report handle (if goos = "windows" then 0 :: b else b)
          else env.hid_write handle (if goos = "windows" then 0 :: b else b)) = w) :
    (w = -1 →
      (DoWrite goos env dev b featureReport).1 =
        (0, some (getError env (some dev)).1)) ∧
    (w ≠ -1 → (DoWrite goos env dev b featureReport).1 = (w, none)) ∧
    (goos = "windows" → w = (b.length : Int) + 1 →
      (DoWrite goos env dev b featureReport).1 = ((b.length : Int) + 1, none)) := by
  have hlen : ¬ b.length = 0 := by simp [List.length_eq_zero, hne]
  have hsucc : w ≠ -1 → (DoWrite goos env dev b featureReport).1 = (w, none) := by
    intro h1
    simp only [DoWrite]
    rw [hopen]
    simp [hlen, hw, h1]
  refine ⟨?_, hsucc, ?_⟩
  · intro h1
    rw [h1] at hw
    simp only [DoWrite]
    rw [hopen]
    simp [hlen, hw]
  · intro hwin hfull
    have h2 : w ≠ -1 := by omega
    rw [hsucc h2, hfull]

/-- Witness for C7: a successful 2-byte write on a non-framing platform
reports the native count unchanged. -/
theorem write_failure_sentinel_and_count_witness :
    (DoWrite "linux" envOk openDev [1, 2] false).1 = (2, none) :=
  (write_failure_sentinel_and_count "linux" envOk openDev 1 [1, 2] false 2
    rfl (by decide) rfl).2.1 (by decide)

/-- Claim C8: `DoRead` dispatch on an open device with a non-empty buffer:
a feature read performs the feature-report native read whatever the timeout;
otherwise a positive timeout selects the bounded native read carrying the
duration truncated to whole milliseconds (stated for durations whose
millisecond count fits a C `int`); otherwise the unbounded blocking read. -/
theorem read_dispatch (env : NativeEnv) (dev : Device) (handle : Nat)
    (b : List Nat) (featureReport : Bool) (timeout : Int)
    (hopen : dev.device = some handle) (hne : b ≠ []) :
    (featureReport = true →
      (DoRead env dev b featureReport timeout).2.head? =
        some (NativeCall.getFeatureReport handle b.length)) ∧
    (featureReport = false → 0 < timeout → timeout / 1000000 < 2 ^ 31 →
      (DoRead env dev b featureReport timeout).2.head? =
        some (NativeCall.readTimeout handle b.length (timeout / 1000000))) ∧
    (featureReport = false → timeout ≤ 0 →
      (DoRead env dev b featureReport timeout).2.head? =
        some (NativeCall.read handle b.length)) := by
  have hlen : ¬ b.length = 0 := by simp [List.length_eq_zero, hne]
  have htrace := DoRead_trace_head env dev handle b featureReport timeout hopen hlen
  refine ⟨?_, ?_, ?_⟩
  · intro hf
    rw [htrace, hf]
    simp
  · intro hf ht hbound
    have hms : cint (timeout / 1000000) = timeout / 1000000 :=
      cint_eq_self _ (by omega) hbound
    rw [htrace, hf]
    simp [ht, hms]
  · intro hf ht
    have hnt : ¬ timeout > 0 := by omega
    rw [htrace, hf]
    simp [hnt]

/-- Witness for C8: a 100 ms (10^8 ns) non-feature read dispatches to the
bounded read with a 100 ms argument. -/
theorem read_dispatch_witness :
    (DoRead envOk openDev [9] false 100000000).2.head? =
      some (NativeCall.readTimeout 1 1 (100000000 / 1000000)) :=
  (read_dispatch envOk openDev 1 [9] false 100000000 rfl (by decide)).2.1 rfl
    (by decide) (by decide)

/-- Claim C10: whenever `DoWrite` or `DoRead` fails because the selected
native primitive returned the -1 sentinel, the count returned alongside the
error is exactly 0 — never the sentinel itself and never a partial count. -/
theorem failure_sentinel_count_zero (goos : String) (env : NativeEnv)
    (dev : Device) (handle : Nat) (b : List Nat) (featureReport : Bool)
    (timeout : Int) (hopen : dev.device = some handle) (hne : b ≠ []) :
    ((if featureReport then
        env.hid_send_feature_report handle (if goos = "windows" then 0 :: b else b)
      else env.hid_write handle (if goos = "windows" then 0 :: b else b)) = -1 →
      (DoWrite goos env dev b featureReport).1 =
        (0, some (getError env (some dev)).1)) ∧
    ((if featureReport then env.hid_get_feature_report handle b.length
      else if timeout > 0 then
        env.hid_read_timeout handle b.length (cint (timeout / 1000000))
      else env.hid_read handle b.length) = -1 →
      (DoRead env dev b featureReport timeout).1 =
        (0, some (getError env (some dev)).1)) := by
  have hlen : ¬ b.length = 0 := by simp [List.length_eq_zero, hne]
  constructor
  · intro hw
    simp only [DoWrite]
    rw [hopen]
    simp [hlen, hw]
  · intro hr
    simp only [DoRead]
    rw [hopen]
    simp [hlen, hr]

/-- Witness for C10: a failing 1-byte write returns the pair of count 0 and
the translated error. -/
theorem failure_sentinel_count_zero_witness :
    (DoWrite "linux" envFailNoMsg openDev [3] false).1 =
      (0, some (HidError.UnknownFailure 13)) :=
  (failure_sentinel_count_zero "linux" envFailNoMsg openDev 1 [3] false 0
    rfl (by decide)).1 rfl

end Hid
